import Mathlib

/-!
Verification of `scripts/split-generic-fields.py` (omnera-dev/omnera-v2).

The script rewrites a JSON Schema document: it replaces the first two members
of the discriminated union at `items.properties.fields.items.anyOf` with nine
synthesized concrete field-type schemas (five text, four number), preserving
every union member from index 2 onward, and writes the document back.

We embed the JSON data model as an inductive type whose objects are ordered
association lists (Python 3 `dict` preserves insertion order, and `json.load`
builds dicts in document order), and translate the script's pure core:
`create_text_field`, `create_number_field`, the two catalogs, and the splice
performed in `main`. File I/O is out of scope: `spliceDocument` returns
`Option Json`, where `none` models the uncaught exception (`KeyError` /
`TypeError`) that terminates the process before any output is written, and
`some out` models a run that reaches the final `json.dump` and writes `out`.
-/

set_option maxHeartbeats 1000000

/-- JSON values; objects are ordered association lists with the keys in
Python dict insertion order. The only numbers occurring in the script are
integer literals, so `Int` suffices for the numeric payload. -/
inductive Json where
  | null : Json
  | bool : Bool → Json
  | num : Int → Json
  | str : String → Json
  | arr : List Json → Json
  | obj : List (String × Json) → Json

/-- First-match lookup in an ordered association list: Python `d[k]` read
(dicts have unique keys, so first match is the match). -/
def lookupFirst : List (String × Json) → String → Option Json
  | [], _ => none
  | p :: rest, k => if p.1 = k then some p.2 else lookupFirst rest k

/-- Replace the value at the first occurrence of key `k`, keeping its
position: Python `d[k] = v` when `k` is already present. -/
def setFirst : List (String × Json) → String → Json → List (String × Json)
  | [], _, _ => []
  | p :: rest, k, v => if p.1 = k then (k, v) :: rest else p :: setFirst rest k v

/-- Python `d[k] = v`: overwrite in place when the key exists, append
otherwise. -/
def updateEntry (m : List (String × Json)) (k : String) (v : Json) :
    List (String × Json) :=
  if (lookupFirst m k).isSome then setFirst m k v else m ++ [(k, v)]

/-- Python `d.update(other)`: each entry of `other` overwrites an existing
key in place or is appended at the end, in `other`'s order. -/
def dictUpdate (m extra : List (String × Json)) : List (String × Json) :=
  extra.foldl (fun acc p => updateEntry acc p.1 p.2) m

/-- Python truthiness of an optional dict: `if additional_props:` is false
both for `None` and for an empty dict. -/
def truthy (o : Option (List (String × Json))) : Bool :=
  match o with
  | none => false
  | some l => !l.isEmpty

/-- Read a key of a JSON object; `none` models Python raising
(`KeyError` on a missing key, `TypeError` when subscripting a non-dict). -/
def Json.get? (j : Json) (k : String) : Option Json :=
  match j with
  | Json.obj m => lookupFirst m k
  | _ => none

/-- Chained subscript read `schema[k1][k2]...[kn]`; `none` models the
uncaught exception aborting the process. -/
def getPathJ : Json → List String → Option Json
  | j, [] => some j
  | Json.obj m, k :: ks =>
    match lookupFirst m k with
    | some v => getPathJ v ks
    | none => none
  | _, _ :: _ => none

/-- Chained subscript write `schema[k1][k2]...[kn] = v` along a path whose
prefix is read first (as `main` does): every key on the path must already
exist, and the final key's value is replaced in place. -/
def setPath : Json → List String → Json → Option Json
  | _, [], v => some v
  | Json.obj m, k :: ks, v =>
    match lookupFirst m k with
    | some u =>
      match setPath u ks v with
      | some u2 => some (Json.obj (setFirst m k u2))
      | none => none
    | none => none
  | _, _ :: _, _ => none

/-- `create_text_field` from the script: the full object schema synthesized
for one text-family descriptor (transcribed verbatim; `f"..."` interpolation
becomes string concatenation). -/
def create_text_field (field_type title description : String)
    (business_rules user_stories : List String) : Json :=
  Json.obj [
    ("title", Json.str title),
    ("description", Json.str description),
    ("type", Json.str "object"),
    ("properties", Json.obj [
      ("id", Json.obj [
        ("$ref", Json.str "../common/definitions.schema.json#/definitions/id"),
        ("x-user-stories", Json.arr [
          Json.str "GIVEN a new entity is created WHEN the system assigns an ID THEN it should be unique within the parent collection",
          Json.str "GIVEN an entity exists WHEN attempting to modify its ID THEN the system should prevent changes (read-only constraint)",
          Json.str "GIVEN a client requests an entity by ID WHEN the ID is valid THEN the entity should be retrieved successfully"])]),
      ("name", Json.obj [
        ("$ref", Json.str "../common/definitions.schema.json#/definitions/name"),
        ("x-user-stories", Json.arr [
          Json.str "GIVEN new field is created WHEN saving configuration THEN field name should follow database naming conventions",
          Json.str "GIVEN field with duplicate name WHEN validating table schema THEN error should prevent conflicts",
          Json.str "GIVEN field name is set WHEN querying data THEN field should be accessible by its name"])]),
      ("required", Json.obj [
        ("type", Json.str "boolean"),
        ("default", Json.bool false),
        ("x-business-rules", Json.arr [
          Json.str "Defaults to false when not specified, providing sensible fallback behavior without requiring explicit configuration"]),
        ("x-user-stories", Json.arr [
          Json.str "GIVEN required is true WHEN processing entity THEN corresponding behavior should be enforced",
          Json.str "GIVEN required is false (default: False) WHEN processing entity THEN corresponding behavior should not be enforced",
          Json.str "GIVEN configuration with required WHEN validating settings THEN boolean value should be accepted"])]),
      ("unique", Json.obj [
        ("type", Json.str "boolean"),
        ("default", Json.bool false),
        ("description", Json.str "Whether this field must contain unique values across all rows"),
        ("x-business-rules", Json.arr [
          Json.str "Uniqueness constraint prevents conflicts and ensures each unique can be unambiguously referenced",
          Json.str "Defaults to false when not specified, providing sensible fallback behavior without requiring explicit configuration"]),
        ("x-user-stories", Json.arr [
          Json.str "GIVEN unique is true WHEN processing entity THEN corresponding behavior should be enforced",
          Json.str "GIVEN unique is false (default: False) WHEN processing entity THEN corresponding behavior should not be enforced",
          Json.str "GIVEN configuration with unique WHEN validating settings THEN boolean value should be accepted"])]),
      ("indexed", Json.obj [
        ("type", Json.str "boolean"),
        ("default", Json.bool false),
        ("description", Json.str "Whether to create a database index on this field for faster queries"),
        ("x-business-rules", Json.arr [
          Json.str "Defaults to false when not specified, providing sensible fallback behavior without requiring explicit configuration"]),
        ("x-user-stories", Json.arr [
          Json.str "GIVEN indexed is true WHEN processing entity THEN corresponding behavior should be enforced",
          Json.str "GIVEN indexed is false (default: False) WHEN processing entity THEN corresponding behavior should not be enforced",
          Json.str "GIVEN configuration with indexed WHEN validating settings THEN boolean value should be accepted"])]),
      ("type", Json.obj [
        ("const", Json.str field_type),
        ("x-business-rules", Json.arr [
          Json.str ("Constant value \x27" ++ field_type ++ "\x27 ensures type safety and enables discriminated unions for field type validation")]),
        ("x-user-stories", Json.arr [
          Json.str ("GIVEN a " ++ title ++ " is configured WHEN validating schema THEN type must be \x27" ++ field_type ++ "\x27"),
          Json.str ("GIVEN type is set to \x27" ++ field_type ++ "\x27 WHEN processing field THEN it should be treated as a " ++ title)])]),
      ("default", Json.obj [
        ("type", Json.str "string"),
        ("x-user-stories", Json.arr [
          Json.str "GIVEN user provides default WHEN validating input THEN string value should be accepted",
          Json.str "GIVEN default is empty string WHEN validating input THEN behavior should follow optional/required rules"])])]),
    ("required", Json.arr [Json.str "id", Json.str "name", Json.str "type"]),
    ("additionalProperties", Json.bool false),
    ("x-user-stories", Json.arr (user_stories.map Json.str)),
    ("x-business-rules", Json.arr (business_rules.map Json.str))]

/-- The initial value of `field_schema["properties"]` in the script's
`create_number_field`: the common number-family template, before
`additional_props` is merged in. -/
def numberCommonProps (field_type title : String) : List (String × Json) := [
    ("id", Json.obj [
      ("$ref", Json.str "../common/definitions.schema.json#/definitions/id"),
      ("x-user-stories", Json.arr [
        Json.str "GIVEN a new entity is created WHEN the system assigns an ID THEN it should be unique within the parent collection",
        Json.str "GIVEN an entity exists WHEN attempting to modify its ID THEN the system should prevent changes (read-only constraint)",
        Json.str "GIVEN a client requests an entity by ID WHEN the ID is valid THEN the entity should be retrieved successfully"])]),
    ("name", Json.obj [
      ("$ref", Json.str "../common/definitions.schema.json#/definitions/name"),
      ("x-user-stories", Json.arr [
        Json.str "GIVEN new field is created WHEN saving configuration THEN field name should follow database naming conventions",
        Json.str "GIVEN field with duplicate name WHEN validating table schema THEN error should prevent conflicts",
        Json.str "GIVEN field name is set WHEN querying data THEN field should be accessible by its name"])]),
    ("required", Json.obj [
      ("type", Json.str "boolean"),
      ("default", Json.bool false),
      ("x-business-rules", Json.arr [
        Json.str "Defaults to false when not specified, providing sensible fallback behavior without requiring explicit configuration"]),
      ("x-user-stories", Json.arr [
        Json.str "GIVEN required is true WHEN processing entity THEN corresponding behavior should be enforced",
        Json.str "GIVEN required is false (default: False) WHEN processing entity THEN corresponding behavior should not be enforced",
        Json.str "GIVEN configuration with required WHEN validating settings THEN boolean value should be accepted"])]),
    ("unique", Json.obj [
      ("type", Json.str "boolean"),
      ("default", Json.bool false),
      ("description", Json.str "Whether this field must contain unique values across all rows"),
      ("x-business-rules", Json.arr [
        Json.str "Uniqueness constraint prevents conflicts and ensures each unique can be unambiguously referenced",
        Json.str "Defaults to false when not specified, providing sensible fallback behavior without requiring explicit configuration"]),
      ("x-user-stories", Json.arr [
        Json.str "GIVEN unique is true WHEN processing entity THEN corresponding behavior should be enforced",
        Json.str "GIVEN unique is false (default: False) WHEN processing entity THEN corresponding behavior should not be enforced",
        Json.str "GIVEN configuration with unique WHEN validating settings THEN boolean value should be accepted"])]),
    ("indexed", Json.obj [
      ("type", Json.str "boolean"),
      ("default", Json.bool false),
      ("description", Json.str "Whether to create a database index on this field for faster queries"),
      ("x-business-rules", Json.arr [
        Json.str "Defaults to false when not specified, providing sensible fallback behavior without requiring explicit configuration"]),
      ("x-user-stories", Json.arr [
        Json.str "GIVEN indexed is true WHEN processing entity THEN corresponding behavior should be enforced",
        Json.str "GIVEN indexed is false (default: False) WHEN processing entity THEN corresponding behavior should not be enforced",
        Json.str "GIVEN configuration with indexed WHEN validating settings THEN boolean value should be accepted"])]),
    ("type", Json.obj [
      ("const", Json.str field_type),
      ("x-business-rules", Json.arr [
        Json.str ("Constant value \x27" ++ field_type ++ "\x27 ensures type safety and enables discriminated unions for field type validation")]),
      ("x-user-stories", Json.arr [
        Json.str ("GIVEN a " ++ title ++ " is configured WHEN validating schema THEN type must be \x27" ++ field_type ++ "\x27"),
        Json.str ("GIVEN type is set to \x27" ++ field_type ++ "\x27 WHEN processing field THEN it should be treated as a " ++ title)])]),
    ("min", Json.obj [
      ("type", Json.str "number"),
      ("description", Json.str "Minimum value"),
      ("x-user-stories", Json.arr [
        Json.str "GIVEN user provides min WHEN validating input THEN numeric value should be accepted",
        Json.str "GIVEN user provides non-numeric min WHEN validating input THEN error should require number"])]),
    ("max", Json.obj [
      ("type", Json.str "number"),
      ("description", Json.str "Maximum value"),
      ("x-user-stories", Json.arr [
        Json.str "GIVEN user provides max WHEN validating input THEN numeric value should be accepted",
        Json.str "GIVEN user provides non-numeric max WHEN validating input THEN error should require number"])]),
    ("default", Json.obj [
      ("type", Json.str "number"),
      ("x-user-stories", Json.arr [
        Json.str "GIVEN user provides default WHEN validating input THEN numeric value should be accepted",
        Json.str "GIVEN user provides non-numeric default WHEN validating input THEN error should require number"])])]

/-- `create_number_field` from the script: the full object schema synthesized
for one number-family descriptor. The `user_stories` parameter exists in the
source signature but is never used in the body; `additional_props` is merged
into `properties` (Python `dict.update`) only when the condition
`if additional_props:` is truthy, i.e. neither `None` nor an empty dict. -/
def create_number_field (field_type title description : String)
    (business_rules user_stories : List String)
    (additional_props : Option (List (String × Json))) : Json :=
  let base : List (String × Json) := numberCommonProps field_type title
  let props : List (String × Json) :=
    if truthy additional_props then dictUpdate base (additional_props.getD []) else base
  Json.obj [
    ("title", Json.str title),
    ("description", Json.str description),
    ("type", Json.str "object"),
    ("properties", Json.obj props),
    ("required", Json.arr [Json.str "id", Json.str "name", Json.str "type"]),
    ("additionalProperties", Json.bool false),
    ("x-business-rules", Json.arr (business_rules.map Json.str))]

/-- One entry of the `text_fields` catalog literal in `main`. -/
structure TextFieldDef where
  type : String
  title : String
  description : String
  business_rules : List String
  user_stories : List String

/-- One entry of the `number_fields` catalog literal in `main`. Every entry
of the source catalog carries an `additional_props` key (possibly the empty
dict), so the field is total here; `main` reads it with `.get`, which would
yield `None` only if the key were absent. -/
structure NumberFieldDef where
  type : String
  title : String
  description : String
  business_rules : List String
  user_stories : List String
  additional_props : List (String × Json)

/-- The `text_fields` catalog from `main`, verbatim. -/
def text_fields : List TextFieldDef := [
  { type := "single-line-text",
    title := "Single Line Text Field",
    description := "Short text input limited to a single line. Ideal for names, titles, labels, and brief identifiers. Text is stored as-is without formatting. Required flag makes the field mandatory. Unique constraint ensures no duplicate values across records. Indexing improves search and filter performance on this field.",
    business_rules := [
      "Single-line constraint prevents multi-line input, ensuring consistent formatting and UI display",
      "Text is stored without formatting, preserving raw input for maximum flexibility"],
    user_stories := [
      "GIVEN I create a single-line text field WHEN I add a record THEN it should accept text without line breaks",
      "GIVEN I create a single-line text field with unique constraint WHEN I add duplicate text THEN it should reject the input",
      "GIVEN I create a required single-line text field WHEN I submit without value THEN it should show validation error"] },
  { type := "long-text",
    title := "Long Text Field",
    description := "Multi-line text input for paragraphs, descriptions, notes, and comments. Supports line breaks and longer content. Text is stored as-is without rich formatting (no bold, italics, etc.). Required flag makes the field mandatory. Indexing improves search performance but may be slower for very long content.",
    business_rules := [
      "Multi-line support allows paragraphs and structured content with line breaks",
      "Text is stored without rich formatting (HTML, Markdown) to prevent injection attacks and maintain data portability"],
    user_stories := [
      "GIVEN I create a long text field WHEN I add a record THEN it should accept multi-line text with line breaks",
      "GIVEN I create a long text field WHEN I paste formatted text THEN it should strip formatting and preserve plain text",
      "GIVEN I create a required long text field WHEN I submit without value THEN it should show validation error"] },
  { type := "phone-number",
    title := "Phone Number Field",
    description := "Text field optimized for phone numbers with automatic formatting based on detected country code. Stores the raw phone number value without validation to support international formats. Display formatting helps readability but doesn\x27t enforce strict patterns. Required flag makes the field mandatory. Unique constraint ensures no duplicate phone numbers.",
    business_rules := [
      "Phone numbers are stored as raw text to support diverse international formats without strict validation",
      "Automatic formatting improves readability but doesn\x27t restrict input, allowing flexibility for edge cases"],
    user_stories := [
      "GIVEN I create a phone number field WHEN I enter a phone number THEN it should format it automatically for display",
      "GIVEN I create a phone number field WHEN I enter an international number THEN it should accept it without validation errors",
      "GIVEN I create a phone number field with unique constraint WHEN I enter a duplicate number THEN it should reject the input"] },
  { type := "email",
    title := "Email Field",
    description := "Text field with email format validation (username@domain). Validates email structure (presence of @ symbol and domain) without sending test emails. Stores email as lowercase for consistent lookups. Required flag makes the field mandatory. Unique constraint ensures no duplicate emails. Indexing enables fast email-based queries.",
    business_rules := [
      "Email validation checks structure (@ symbol, domain) without verifying deliverability to balance usability and data quality",
      "Emails are stored as lowercase to prevent duplicate entries differing only by case (Email@example.com vs email@example.com)"],
    user_stories := [
      "GIVEN I create an email field WHEN I enter a valid email THEN it should accept the input",
      "GIVEN I create an email field WHEN I enter text without @ symbol THEN it should show validation error",
      "GIVEN I create an email field with unique constraint WHEN I enter a duplicate email THEN it should reject the input regardless of case"] },
  { type := "url",
    title := "URL Field",
    description := "Text field for web links with URL format validation (http:// or https://). Validates URL structure and protocol without checking if the link is reachable. Stores full URL including protocol. Display shows clickable link in the UI. Required flag makes the field mandatory. Unique constraint ensures no duplicate URLs.",
    business_rules := [
      "URL validation checks structure and protocol (http/https) without verifying link reachability to avoid external dependencies",
      "Full URL with protocol is stored to ensure links work correctly when clicked (http://example.com, not example.com)"],
    user_stories := [
      "GIVEN I create a URL field WHEN I enter a valid URL with http:// or https:// THEN it should accept the input",
      "GIVEN I create a URL field WHEN I enter text without protocol THEN it should show validation error",
      "GIVEN I create a URL field WHEN I view the record THEN the URL should display as a clickable link"] }]

/-- The `number_fields` catalog from `main`, verbatim. -/
def number_fields : List NumberFieldDef := [
  { type := "integer",
    title := "Integer Field",
    description := "Whole number field without decimal places. Ideal for counts, IDs, quantities, ages, and rankings. Supports min/max constraints for range validation. Required flag makes the field mandatory. Unique constraint ensures no duplicate values. Indexing enables efficient numerical sorting and filtering.",
    business_rules := [
      "Integer constraint ensures only whole numbers are accepted, preventing decimal input",
      "Min/max constraints provide range validation to keep values within business-defined bounds"],
    user_stories := [
      "GIVEN I create an integer field WHEN I enter a whole number THEN it should accept the input",
      "GIVEN I create an integer field WHEN I enter a decimal number THEN it should reject the input",
      "GIVEN I create an integer field with min=0 and max=100 WHEN I enter 150 THEN it should show validation error"],
    additional_props := [] },
  { type := "decimal",
    title := "Decimal Field",
    description := "Floating-point number field with configurable decimal precision (0-10 places). Ideal for measurements, scores, ratings, and scientific data. Precision determines how many decimal places are stored and displayed (default: 2). Supports min/max constraints for range validation. Required flag makes the field mandatory.",
    business_rules := [
      "Precision (0-10 decimal places) controls rounding and storage, preventing floating-point errors",
      "Default precision of 2 decimal places suits most use cases (prices, percentages) without requiring configuration"],
    user_stories := [
      "GIVEN I create a decimal field with precision=2 WHEN I enter 3.14159 THEN it should round to 3.14",
      "GIVEN I create a decimal field WHEN I enter a whole number THEN it should accept it and display with decimal places",
      "GIVEN I create a decimal field with min=0.0 and max=1.0 WHEN I enter 1.5 THEN it should show validation error"],
    additional_props := [
      ("precision", Json.obj [
        ("type", Json.str "integer"),
        ("description", Json.str "Number of decimal places"),
        ("minimum", Json.num 0),
        ("maximum", Json.num 10),
        ("default", Json.num 2),
        ("x-business-rules", Json.arr [
          Json.str "Numeric range (0-10) prevents overflow errors and ensures values stay within valid business bounds",
          Json.str "Defaults to 2 when not specified, providing sensible fallback behavior without requiring explicit configuration"]),
        ("x-user-stories", Json.arr [
          Json.str "GIVEN user provides precision between 0 and 10 WHEN validating input THEN value should be accepted",
          Json.str "GIVEN user provides precision below 0 WHEN validating input THEN error should enforce minimum value",
          Json.str "GIVEN user provides precision above 10 WHEN validating input THEN error should enforce maximum value"])])] },
  { type := "currency",
    title := "Currency Field",
    description := "Monetary value field with currency code (USD, EUR, GBP, etc.). Stores numeric value with 2 decimal places for cents/pence. Currency code determines display format and symbol ($, €, £). Supports min/max constraints for range validation. Required flag makes the field mandatory. Indexing enables efficient sorting by monetary value.",
    business_rules := [
      "Currency code is stored separately from value to support multi-currency applications and accurate conversions",
      "Fixed 2 decimal places match standard accounting practices for monetary values (cents/pence precision)",
      "Default currency of USD provides sensible fallback for applications without multi-currency needs"],
    user_stories := [
      "GIVEN I create a currency field with USD WHEN I enter 99.99 THEN it should display as $99.99",
      "GIVEN I create a currency field with EUR WHEN I enter 99.99 THEN it should display as €99.99",
      "GIVEN I create a currency field WHEN I enter 99.999 THEN it should round to 2 decimal places (99.99)"],
    additional_props := [
      ("currency", Json.obj [
        ("type", Json.str "string"),
        ("description", Json.str "Currency code (ISO 4217)"),
        ("default", Json.str "USD"),
        ("examples", Json.arr [Json.str "USD", Json.str "EUR", Json.str "GBP", Json.str "JPY", Json.str "CAD"]),
        ("x-business-rules", Json.arr [
          Json.str "Defaults to \"USD\" when not specified, providing sensible fallback behavior without requiring explicit configuration",
          Json.str "Currency code should follow ISO 4217 standard for international compatibility"]),
        ("x-user-stories", Json.arr [
          Json.str "GIVEN user provides currency WHEN validating input THEN string value should be accepted",
          Json.str "GIVEN currency is empty string WHEN validating input THEN default to USD"])])] },
  { type := "percentage",
    title := "Percentage Field",
    description := "Ratio field displayed as percentage (0-100%). Stores value as decimal (0.0-1.0 or 0-100 depending on configuration). Display adds % symbol automatically. Supports min/max constraints for range validation (typically 0-100). Required flag makes the field mandatory. Useful for completion rates, discounts, and probability values.",
    business_rules := [
      "Percentage values are displayed with % symbol but stored as numbers to enable mathematical operations",
      "Min/max constraints typically enforce 0-100 range but can be configured for specific use cases (e.g., growth rates >100%)"],
    user_stories := [
      "GIVEN I create a percentage field WHEN I enter 75 THEN it should display as 75%",
      "GIVEN I create a percentage field with max=100 WHEN I enter 150 THEN it should show validation error",
      "GIVEN I create a percentage field WHEN I enter a decimal like 33.33 THEN it should accept it and display as 33.33%"],
    additional_props := [] }]

/-- The synthesis call `main` makes for one text descriptor. -/
def synthText (d : TextFieldDef) : Json :=
  create_text_field d.type d.title d.description d.business_rules d.user_stories

/-- The synthesis call `main` makes for one number descriptor
(`field_def.get("additional_props")` yields the entry's dict, possibly
empty). -/
def synthNumber (d : NumberFieldDef) : Json :=
  create_number_field d.type d.title d.description d.business_rules d.user_stories
    (some d.additional_props)

/-- `new_any_of` as built by the two loops in `main`: all synthesized text
schemas in catalog order, then all synthesized number schemas in catalog
order. -/
def new_any_of : List Json :=
  text_fields.map synthText ++ number_fields.map synthNumber

/-- The keep-loop in `main`: `for i, field in enumerate(original_any_of):
if i >= 2: new_any_of.append(field)` — every original member at index ≥ 2,
in order. Note there is no check that at least two members exist. -/
def keptTail (l : List Json) : List Json :=
  (l.enum.filter (fun p => 2 ≤ p.1)).map Prod.snd

/-- The fixed access path `items.properties.fields.items.anyOf`. -/
def fieldsPath : List String := ["items", "properties", "fields", "items", "anyOf"]

/-- The whole transformation of `main` between `json.load` and `json.dump`:
read the union at `fieldsPath`, build the new union, write it back at the
same place. `none` models the uncaught exception that kills the process
before the output file is opened for writing (a missing key on the path; we
also map a non-sequence value at `anyOf` to `none`, a case outside the
claims' scope). -/
def spliceDocument (schema : Json) : Option Json :=
  match getPathJ schema fieldsPath with
  | some (Json.arr original_any_of) =>
    setPath schema fieldsPath (Json.arr (new_any_of ++ keptTail original_any_of))
  | _ => none

/-- The keys of a synthesized schema's `properties` object, in order. -/
def propKeys (j : Json) : List String :=
  match j.get? "properties" with
  | some (Json.obj m) => m.map Prod.fst
  | _ => []

/-- The common template keys of the text family, in emission order. -/
def commonTextKeys : List String :=
  ["id", "name", "required", "unique", "indexed", "type", "default"]

/-- The common template keys of the number family, in emission order
(`min` and `max` sit before `default`). -/
def commonNumberKeys : List String :=
  ["id", "name", "required", "unique", "indexed", "type", "min", "max", "default"]

/-- Length of the union at `fieldsPath`, the observation used to separate
documents without comparing their full trees. -/
def anyOfLen (j : Json) : Option Nat :=
  match getPathJ j fieldsPath with
  | some (Json.arr l) => some l.length
  | _ => none

/-- A minimal well-formed document holding a given union at the expected
path. -/
def mkDoc (anyOf : List Json) : Json :=
  Json.obj [("items", Json.obj [("properties", Json.obj [("fields",
    Json.obj [("items", Json.obj [("anyOf", Json.arr anyOf)])])])])]

/-- Concrete document whose union has exactly the two generic members. -/
def docTwo : Json :=
  mkDoc [Json.obj [("title", Json.str "Text Field")],
         Json.obj [("title", Json.str "Number Field")]]

/-- Concrete document whose union has a single member: fewer than the two
entries the spec's precondition demands. -/
def docOne : Json := mkDoc [Json.obj [("title", Json.str "Text Field")]]

/-- Concrete document on which the expected path is absent. -/
def docNoPath : Json := Json.obj [("items", Json.obj [("type", Json.str "array")])]

/-- Concrete document with material outside the union path (a sibling key at
every level) and three members beyond the two generic ones, used to witness
the frame and order-preservation statements. -/
def docFrame : Json :=
  Json.obj [
    ("$schema", Json.str "http://json-schema.org/draft-07/schema#"),
    ("items", Json.obj [
      ("type", Json.str "object"),
      ("properties", Json.obj [
        ("name", Json.obj [("type", Json.str "string")]),
        ("fields", Json.obj [
          ("type", Json.str "array"),
          ("items", Json.obj [
            ("anyOf", Json.arr [
              Json.obj [("title", Json.str "Text Field")],
              Json.obj [("title", Json.str "Number Field")],
              Json.obj [("title", Json.str "Checkbox Field")],
              Json.obj [("title", Json.str "Date Field")],
              Json.obj [("title", Json.str "Select Field")]])])])])])]

/-- `setFirst` never changes the key sequence: an in-place overwrite keeps
every key in its position, and a miss leaves the list untouched. -/
theorem setFirst_map_fst (m : List (String × Json)) (k : String) (v : Json) :
    (setFirst m k v).map Prod.fst = m.map Prod.fst := by
  induction m with
  | nil => rfl
  | cons p rest ih =>
    by_cases hk : p.1 = k
    · simp [setFirst, hk]
    · simp [setFirst, hk, ih]

/-- A key is found exactly when it occurs in the key sequence. -/
theorem lookupFirst_isSome_iff (m : List (String × Json)) (k : String) :
    (lookupFirst m k).isSome ↔ k ∈ m.map Prod.fst := by
  induction m with
  | nil => simp [lookupFirst]
  | cons p rest ih =>
    by_cases hk : p.1 = k
    · simp [lookupFirst, hk]
    · simp [lookupFirst, hk, ih, eq_comm]
      intro h
      exact absurd h.symm hk

/-- Reading back a key just overwritten yields the new value. -/
theorem lookupFirst_setFirst_self (m : List (String × Json)) (k : String) (w : Json)
    (h : (lookupFirst m k).isSome) : lookupFirst (setFirst m k w) k = some w := by
  induction m with
  | nil => simp [lookupFirst] at h
  | cons p rest ih =>
    by_cases hk : p.1 = k
    · simp [setFirst, hk, lookupFirst]
    · simp [lookupFirst, hk] at h
      simp [setFirst, hk, lookupFirst, ih h]

/-- Overwriting a present key and then restoring its old value is the
identity. -/
theorem setFirst_setFirst_cancel (m : List (String × Json)) (k : String) (v w : Json)
    (h : lookupFirst m k = some v) : setFirst (setFirst m k w) k v = m := by
  induction m with
  | nil => simp [lookupFirst] at h
  | cons p rest ih =>
    obtain ⟨a, b⟩ := p
    by_cases hk : a = k
    · simp [lookupFirst, hk] at h
      simp [setFirst, hk, h]
    · simp [lookupFirst, hk] at h
      simp [setFirst, hk, ih h]

/-- A path that reads successfully can also be written. -/
theorem setPath_isSome (ks : List String) (j v w : Json)
    (h : getPathJ j ks = some v) : (setPath j ks w).isSome := by
  induction ks generalizing j with
  | nil => simp [setPath]
  | cons k ks ih =>
    cases j with
    | obj m =>
      cases hlk : lookupFirst m k with
      | none => simp [getPathJ, hlk] at h
      | some u =>
        simp only [getPathJ, hlk] at h
        have hrec := ih u h
        cases hsp : setPath u ks w with
        | none => rw [hsp] at hrec; simp at hrec
        | some u2 => simp [setPath, hlk, hsp]
    | null => simp [getPathJ] at h
    | bool b => simp [getPathJ] at h
    | num n => simp [getPathJ] at h
    | str s => simp [getPathJ] at h
    | arr l => simp [getPathJ] at h

/-- Reading a path just written yields the written value. -/
theorem getPathJ_setPath (ks : List String) (j j2 w : Json)
    (h : setPath j ks w = some j2) : getPathJ j2 ks = some w := by
  induction ks generalizing j j2 with
  | nil => simp [setPath] at h; subst h; simp [getPathJ]
  | cons k ks ih =>
    cases j with
    | obj m =>
      cases hlk : lookupFirst m k with
      | none => simp [setPath, hlk] at h
      | some u =>
        cases hsp : setPath u ks w with
        | none => simp [setPath, hlk, hsp] at h
        | some u2 =>
          simp only [setPath, hlk, hsp] at h
          obtain rfl : Json.obj (setFirst m k u2) = j2 := by cases h; rfl
          have hk2 : lookupFirst (setFirst m k u2) k = some u2 :=
            lookupFirst_setFirst_self m k u2 (by simp [hlk])
          simp only [getPathJ, hk2]
          exact ih u u2 hsp
    | null => simp [setPath] at h
    | bool b => simp [setPath] at h
    | num n => simp [setPath] at h
    | str s => simp [setPath] at h
    | arr l => simp [setPath] at h

/-- Writing a path and then restoring the value read beforehand is the
identity: a successful write changes nothing outside the written path. -/
theorem setPath_cancel (ks : List String) (j v w j2 : Json)
    (hg : getPathJ j ks = some v) (hs : setPath j ks w = some j2) :
    setPath j2 ks v = some j := by
  induction ks generalizing j j2 with
  | nil =>
    simp [getPathJ] at hg
    simp [setPath] at hs
    subst hg; subst hs; simp [setPath]
  | cons k ks ih =>
    cases j with
    | obj m =>
      cases hlk : lookupFirst m k with
      | none => simp [getPathJ, hlk] at hg
      | some u =>
        simp only [getPathJ, hlk] at hg
        cases hsp : setPath u ks w with
        | none => simp [setPath, hlk, hsp] at hs
        | some u2 =>
          simp only [setPath, hlk, hsp] at hs
          obtain rfl : Json.obj (setFirst m k u2) = j2 := by cases hs; rfl
          have hk2 : lookupFirst (setFirst m k u2) k = some u2 :=
            lookupFirst_setFirst_self m k u2 (by simp [hlk])
          have hrec : setPath u2 ks v = some u := ih u u2 hg hsp
          simp only [setPath, hk2, hrec]
          rw [setFirst_setFirst_cancel m k u u2 hlk]
    | null => simp [getPathJ] at hg
    | bool b => simp [getPathJ] at hg
    | num n => simp [getPathJ] at hg
    | str s => simp [getPathJ] at hg
    | arr l => simp [getPathJ] at hg

/-- Enumerating from an index already ≥ 2, the keep-loop's filter keeps
everything. -/
theorem enumFrom_filter_ge_two (l : List Json) (n : Nat) (hn : 2 ≤ n) :
    (((l.enumFrom n).filter (fun p => 2 ≤ p.1)).map Prod.snd) = l := by
  induction l generalizing n with
  | nil => rfl
  | cons x xs ih =>
    simp [List.enumFrom_cons, List.filter_cons, hn]
    exact ih (n + 1) (by omega)

/-- The keep-loop of `main` is exactly `drop 2`. -/
theorem keptTail_eq_drop (l : List Json) : keptTail l = l.drop 2 := by
  cases l with
  | nil => rfl
  | cons a l' =>
    cases l' with
    | nil => rfl
    | cons b rest =>
      show keptTail (a :: b :: rest) = rest
      unfold keptTail
      simp only [List.enum_cons, List.filter_cons]
      norm_num
      exact enumFrom_filter_ge_two rest 2 (by omega)

/-- Five text schemas and four number schemas are synthesized. -/
theorem new_any_of_len : new_any_of.length = 9 := rfl

/-- On a document whose union exists, `main`'s transformation is the
in-place replacement of the union by `new_any_of ++ keptTail`. -/
theorem spliceDocument_eq (schema : Json) (l : List Json)
    (hg : getPathJ schema fieldsPath = some (Json.arr l)) :
    spliceDocument schema
      = setPath schema fieldsPath (Json.arr (new_any_of ++ keptTail l)) := by
  unfold spliceDocument
  rw [hg]

/-- Claim C1 as stated is false: on a document whose union at
`items.properties.fields.items.anyOf` exists but has only one entry (fewer
than two), the program does not fail — the splice succeeds and the document
is written. -/
theorem c1_counterexample : (spliceDocument docOne).isSome = true := rfl

/-- Claim C1, amended: if the path `items.properties.fields.items.anyOf`
is absent the program fails loudly (uncaught `KeyError`) before writing any
output; but if the union is present with fewer than two entries the program
does not fail: it silently writes a spliced document whose union consists
of exactly the nine synthesized schemas. -/
theorem c1_amended_behavior :
    (∀ schema, getPathJ schema fieldsPath = none → spliceDocument schema = none) ∧
    (∀ schema l, getPathJ schema fieldsPath = some (Json.arr l) → l.length < 2 →
      ∃ out, spliceDocument schema = some out ∧
        getPathJ out fieldsPath = some (Json.arr new_any_of)) := by
  constructor
  · intro schema h
    unfold spliceDocument
    rw [h]
  · intro schema l hg hlen
    have hkept : keptTail l = [] := by
      rw [keptTail_eq_drop]
      exact List.drop_eq_nil_of_le (by omega)
    have hsome := setPath_isSome fieldsPath schema (Json.arr l)
      (Json.arr (new_any_of ++ keptTail l)) hg
    obtain ⟨out, hout⟩ := Option.isSome_iff_exists.mp hsome
    refine ⟨out, ?_, ?_⟩
    · rw [spliceDocument_eq schema l hg]
      exact hout
    · have hread := getPathJ_setPath fieldsPath schema out _ hout
      rw [hkept, List.append_nil] at hread
      exact hread

/-- Witness for the amended C1: the document with no `anyOf` path aborts,
and the one-member document is spliced and written. -/
theorem c1_witness :
    spliceDocument docNoPath = none ∧
    (∃ out, spliceDocument docOne = some out ∧
      getPathJ out fieldsPath = some (Json.arr new_any_of)) :=
  ⟨c1_amended_behavior.1 docNoPath rfl,
   c1_amended_behavior.2 docOne [Json.obj [("title", Json.str "Text Field")]]
     rfl (by decide)⟩

/-- Claim C2 as stated is false: applying the splice to a document that is
itself the output of the splice does not yield the same document. On the
two-member document, one application gives a union of length 9, a second
application gives length 16. -/
theorem c2_counterexample :
    Option.bind (spliceDocument docTwo) spliceDocument ≠ spliceDocument docTwo := by
  intro h
  have h9 : Option.bind (spliceDocument docTwo) anyOfLen = some 9 := rfl
  have h16 : Option.bind (Option.bind (spliceDocument docTwo) spliceDocument)
      anyOfLen = some 16 := rfl
  rw [h, h9] at h16
  exact absurd h16 (by decide)

/-- Claim C2, amended: the transformation is not idempotent. For every
document satisfying the precondition, re-applying the splice to the output
succeeds but yields a different document: the first output's union has
length 9 + (L - 2), the second 16 + (L - 2), because the second run drops
the first two freshly synthesized schemas and prepends nine more. -/
theorem c2_amended_behavior (schema d1 : Json) (l : List Json)
    (hg : getPathJ schema fieldsPath = some (Json.arr l)) (h2 : 2 ≤ l.length)
    (h1 : spliceDocument schema = some d1) :
    ∃ d2, spliceDocument d1 = some d2 ∧
      anyOfLen d1 = some (9 + (l.length - 2)) ∧
      anyOfLen d2 = some (16 + (l.length - 2)) ∧
      d1 ≠ d2 := by
  have hset : setPath schema fieldsPath (Json.arr (new_any_of ++ keptTail l)) = some d1 := by
    rw [spliceDocument_eq schema l hg] at h1
    exact h1
  have hget1 : getPathJ d1 fieldsPath = some (Json.arr (new_any_of ++ keptTail l)) :=
    getPathJ_setPath _ _ _ _ hset
  have hlen1 : (new_any_of ++ keptTail l).length = 9 + (l.length - 2) := by
    rw [List.length_append, new_any_of_len, keptTail_eq_drop, List.length_drop]
  have hsome2 := setPath_isSome fieldsPath d1 (Json.arr (new_any_of ++ keptTail l))
    (Json.arr (new_any_of ++ keptTail (new_any_of ++ keptTail l))) hget1
  obtain ⟨d2, hd2⟩ := Option.isSome_iff_exists.mp hsome2
  have hsplice2 : spliceDocument d1 = some d2 := by
    rw [spliceDocument_eq d1 (new_any_of ++ keptTail l) hget1]
    exact hd2
  have hget2 : getPathJ d2 fieldsPath
      = some (Json.arr (new_any_of ++ keptTail (new_any_of ++ keptTail l))) :=
    getPathJ_setPath _ _ _ _ hd2
  have hlen2 : (new_any_of ++ keptTail (new_any_of ++ keptTail l)).length
      = 16 + (l.length - 2) := by
    rw [List.length_append, new_any_of_len, keptTail_eq_drop, List.length_drop, hlen1]
    omega
  refine ⟨d2, hsplice2, ?_, ?_, ?_⟩
  · unfold anyOfLen
    rw [hget1]
    exact congrArg some hlen1
  · unfold anyOfLen
    rw [hget2]
    exact congrArg some hlen2
  · intro he
    rw [he, hget2] at hget1
    have harr := Option.some.inj hget1
    have hl := congrArg List.length (Json.arr.inj harr)
    rw [hlen1, hlen2] at hl
    omega

/-- Witness for the amended C2 at the two-member document. -/
theorem c2_witness :
    ∃ d2, spliceDocument ((spliceDocument docTwo).getD Json.null) = some d2 ∧
      anyOfLen ((spliceDocument docTwo).getD Json.null) = some (9 + (2 - 2)) ∧
      anyOfLen d2 = some (16 + (2 - 2)) ∧
      ((spliceDocument docTwo).getD Json.null) ≠ d2 :=
  c2_amended_behavior docTwo ((spliceDocument docTwo).getD Json.null)
    [Json.obj [("title", Json.str "Text Field")],
     Json.obj [("title", Json.str "Number Field")]]
    rfl (by decide) rfl

/-- Claim C3: for every original union of length L ≥ 2 and the fixed catalog
of 5 text and 4 number descriptors, the spliced union's length is
T + N + (L - 2) = 5 + 4 + (L - 2). -/
theorem c3_union_length (schema out : Json) (l : List Json)
    (hg : getPathJ schema fieldsPath = some (Json.arr l)) (h2 : 2 ≤ l.length)
    (hs : spliceDocument schema = some out) :
    ∃ l2, getPathJ out fieldsPath = some (Json.arr l2) ∧
      l2.length = 5 + 4 + (l.length - 2) := by
  have hset : setPath schema fieldsPath (Json.arr (new_any_of ++ keptTail l)) = some out := by
    rw [spliceDocument_eq schema l hg] at hs
    exact hs
  refine ⟨new_any_of ++ keptTail l, getPathJ_setPath _ _ _ _ hset, ?_⟩
  rw [List.length_append, new_any_of_len, keptTail_eq_drop, List.length_drop]

/-- Witness for C3 at the five-member document: 12 = 5 + 4 + (5 - 2). -/
theorem c3_witness :
    ∃ l2, getPathJ ((spliceDocument docFrame).getD Json.null) fieldsPath
        = some (Json.arr l2) ∧
      l2.length = 5 + 4 + (5 - 2) :=
  c3_union_length docFrame ((spliceDocument docFrame).getD Json.null)
    [Json.obj [("title", Json.str "Text Field")],
     Json.obj [("title", Json.str "Number Field")],
     Json.obj [("title", Json.str "Checkbox Field")],
     Json.obj [("title", Json.str "Date Field")],
     Json.obj [("title", Json.str "Select Field")]]
    rfl (by decide) rfl

/-- Claim C4: in the spliced union, the elements from position T + N = 9 on
are exactly the original union's elements from position 2 on, in order and
unchanged (`drop 9` of the output equals `drop 2` of the input); and nothing
outside the `anyOf` sequence is modified — writing the original union back
into the output restores the input document exactly. -/
theorem c4_order_and_frame (schema out : Json) (l : List Json)
    (hg : getPathJ schema fieldsPath = some (Json.arr l)) (h2 : 2 ≤ l.length)
    (hs : spliceDocument schema = some out) :
    ∃ l2, getPathJ out fieldsPath = some (Json.arr l2) ∧
      l2.drop (5 + 4) = l.drop 2 ∧
      setPath out fieldsPath (Json.arr l) = some schema := by
  have hset : setPath schema fieldsPath (Json.arr (new_any_of ++ keptTail l)) = some out := by
    rw [spliceDocument_eq schema l hg] at hs
    exact hs
  refine ⟨new_any_of ++ keptTail l, getPathJ_setPath _ _ _ _ hset, ?_, ?_⟩
  · have hdrop : (new_any_of ++ keptTail l).drop new_any_of.length = keptTail l :=
      List.drop_left _ _
    rw [new_any_of_len] at hdrop
    rw [show (5 + 4 : Nat) = 9 from rfl, hdrop, keptTail_eq_drop]
  · exact setPath_cancel fieldsPath schema (Json.arr l) _ out hg hset

/-- Witness for C4 at the five-member document with sibling keys at every
level of the path. -/
theorem c4_witness :
    ∃ l2, getPathJ ((spliceDocument docFrame).getD Json.null) fieldsPath
        = some (Json.arr l2) ∧
      l2.drop (5 + 4) =
        ([Json.obj [("title", Json.str "Text Field")],
          Json.obj [("title", Json.str "Number Field")],
          Json.obj [("title", Json.str "Checkbox Field")],
          Json.obj [("title", Json.str "Date Field")],
          Json.obj [("title", Json.str "Select Field")]] : List Json).drop 2 ∧
      setPath ((spliceDocument docFrame).getD Json.null) fieldsPath
        (Json.arr [Json.obj [("title", Json.str "Text Field")],
          Json.obj [("title", Json.str "Number Field")],
          Json.obj [("title", Json.str "Checkbox Field")],
          Json.obj [("title", Json.str "Date Field")],
          Json.obj [("title", Json.str "Select Field")]]) = some docFrame :=
  c4_order_and_frame docFrame ((spliceDocument docFrame).getD Json.null)
    [Json.obj [("title", Json.str "Text Field")],
     Json.obj [("title", Json.str "Number Field")],
     Json.obj [("title", Json.str "Checkbox Field")],
     Json.obj [("title", Json.str "Date Field")],
     Json.obj [("title", Json.str "Select Field")]]
    rfl (by decide) rfl

/-- Claim C5: every synthesized schema of either family has
`required == ["id", "name", "type"]` and `additionalProperties == false`,
and its declared property keys are exactly the family's common template keys
plus the descriptor's extra-property keys (text descriptors have none). -/
theorem c5_closed_world :
    (∀ d ∈ text_fields,
      (synthText d).get? "required"
          = some (Json.arr [Json.str "id", Json.str "name", Json.str "type"]) ∧
      (synthText d).get? "additionalProperties" = some (Json.bool false) ∧
      propKeys (synthText d) = commonTextKeys) ∧
    (∀ d ∈ number_fields,
      (synthNumber d).get? "required"
          = some (Json.arr [Json.str "id", Json.str "name", Json.str "type"]) ∧
      (synthNumber d).get? "additionalProperties" = some (Json.bool false) ∧
      propKeys (synthNumber d) = commonNumberKeys ++ d.additional_props.map Prod.fst) := by
  constructor
  · intro d _
    exact ⟨rfl, rfl, rfl⟩
  · intro d hd
    simp only [number_fields, List.mem_cons, List.not_mem_nil, or_false] at hd
    rcases hd with rfl | rfl | rfl | rfl <;> exact ⟨rfl, rfl, rfl⟩

/-- Witness for C5 at the first text descriptor and the decimal descriptor. -/
theorem c5_witness :
    ((synthText (text_fields.get ⟨0, by decide⟩)).get? "required"
        = some (Json.arr [Json.str "id", Json.str "name", Json.str "type"]) ∧
      (synthText (text_fields.get ⟨0, by decide⟩)).get? "additionalProperties"
        = some (Json.bool false) ∧
      propKeys (synthText (text_fields.get ⟨0, by decide⟩)) = commonTextKeys) ∧
    ((synthNumber (number_fields.get ⟨1, by decide⟩)).get? "required"
        = some (Json.arr [Json.str "id", Json.str "name", Json.str "type"]) ∧
      (synthNumber (number_fields.get ⟨1, by decide⟩)).get? "additionalProperties"
        = some (Json.bool false) ∧
      propKeys (synthNumber (number_fields.get ⟨1, by decide⟩))
        = commonNumberKeys
          ++ (number_fields.get ⟨1, by decide⟩).additional_props.map Prod.fst) :=
  ⟨c5_closed_world.1 _ (List.get_mem _ _ _),
   c5_closed_world.2 _ (List.get_mem _ _ _)⟩

/-- Claim C6: every synthesized schema's `type` property carries a constant
equal to its descriptor's type code, and the nine catalog type codes are
pairwise distinct. -/
theorem c6_discriminators :
    (∀ d ∈ text_fields,
      getPathJ (synthText d) ["properties", "type", "const"]
        = some (Json.str d.type)) ∧
    (∀ d ∈ number_fields,
      getPathJ (synthNumber d) ["properties", "type", "const"]
        = some (Json.str d.type)) ∧
    (text_fields.map TextFieldDef.type ++ number_fields.map NumberFieldDef.type).Nodup := by
  refine ⟨fun d _ => rfl, ?_, by decide⟩
  intro d hd
  simp only [number_fields, List.mem_cons, List.not_mem_nil, or_false] at hd
  rcases hd with rfl | rfl | rfl | rfl <;> rfl

/-- Witness for C6 at the first descriptor of each family. -/
theorem c6_witness :
    getPathJ (synthText (text_fields.get ⟨0, by decide⟩))
        ["properties", "type", "const"]
      = some (Json.str (text_fields.get ⟨0, by decide⟩).type) ∧
    getPathJ (synthNumber (number_fields.get ⟨0, by decide⟩))
        ["properties", "type", "const"]
      = some (Json.str (number_fields.get ⟨0, by decide⟩).type) :=
  ⟨c6_discriminators.1 _ (List.get_mem _ _ _),
   c6_discriminators.2.1 _ (List.get_mem _ _ _)⟩

/-- Claim C7: text-family schemas carry both `x-user-stories` and
`x-business-rules` at top level (copied from the descriptor), while
number-family schemas carry only `x-business-rules` at top level and no
top-level `x-user-stories` key. -/
theorem c7_annotation_asymmetry :
    (∀ d ∈ text_fields,
      (synthText d).get? "x-user-stories"
          = some (Json.arr (d.user_stories.map Json.str)) ∧
      (synthText d).get? "x-business-rules"
          = some (Json.arr (d.business_rules.map Json.str))) ∧
    (∀ d ∈ number_fields,
      (synthNumber d).get? "x-business-rules"
          = some (Json.arr (d.business_rules.map Json.str)) ∧
      (synthNumber d).get? "x-user-stories" = none) :=
  ⟨fun d _ => ⟨rfl, rfl⟩, fun d _ => ⟨rfl, rfl⟩⟩

/-- Witness for C7 at the first descriptor of each family. -/
theorem c7_witness :
    ((synthText (text_fields.get ⟨0, by decide⟩)).get? "x-user-stories"
        = some (Json.arr ((text_fields.get ⟨0, by decide⟩).user_stories.map Json.str)) ∧
      (synthText (text_fields.get ⟨0, by decide⟩)).get? "x-business-rules"
        = some (Json.arr ((text_fields.get ⟨0, by decide⟩).business_rules.map Json.str))) ∧
    ((synthNumber (number_fields.get ⟨0, by decide⟩)).get? "x-business-rules"
        = some (Json.arr ((number_fields.get ⟨0, by decide⟩).business_rules.map Json.str)) ∧
      (synthNumber (number_fields.get ⟨0, by decide⟩)).get? "x-user-stories" = none) :=
  ⟨c7_annotation_asymmetry.1 _ (List.get_mem _ _ _),
   c7_annotation_asymmetry.2 _ (List.get_mem _ _ _)⟩

/-- Claim C8: synthesizing a number field with an empty `additional_props`
mapping yields a schema structurally identical to synthesizing with no
mapping at all — the Python truthiness test `if additional_props:` rejects
both `None` and `{}`, so no empty container leaks into the output. -/
theorem c8_empty_extras (field_type title description : String)
    (business_rules user_stories : List String) :
    create_number_field field_type title description business_rules user_stories (some [])
      = create_number_field field_type title description business_rules user_stories none :=
  rfl

/-- Claim C9: the decimal descriptor's synthesized schema has a `precision`
property with minimum 0, maximum 10 and default 2, and the currency
descriptor's schema has a `currency` property with default "USD". -/
theorem c9_numeric_extras :
    (number_fields.get ⟨1, by decide⟩).type = "decimal" ∧
    getPathJ (synthNumber (number_fields.get ⟨1, by decide⟩))
        ["properties", "precision", "minimum"] = some (Json.num 0) ∧
    getPathJ (synthNumber (number_fields.get ⟨1, by decide⟩))
        ["properties", "precision", "maximum"] = some (Json.num 10) ∧
    getPathJ (synthNumber (number_fields.get ⟨1, by decide⟩))
        ["properties", "precision", "default"] = some (Json.num 2) ∧
    (number_fields.get ⟨2, by decide⟩).type = "currency" ∧
    getPathJ (synthNumber (number_fields.get ⟨2, by decide⟩))
        ["properties", "currency", "default"] = some (Json.str "USD") :=
  ⟨rfl, rfl, rfl, rfl, rfl, rfl⟩

/-- Claim C10: merging an `additional_props` entry whose key already exists
in the common number template neither fails nor duplicates the key: the
synthesized `properties` object keeps exactly the common key sequence (the
key stays at its original position), holds the extra property-schema as the
key's value, and contains the key exactly once. -/
theorem c10_merge_overwrites (field_type title description : String)
    (business_rules user_stories : List String) (k : String) (v : Json)
    (hk : k ∈ commonNumberKeys) :
    ∃ m, (create_number_field field_type title description business_rules
        user_stories (some [(k, v)])).get? "properties" = some (Json.obj m) ∧
      m.map Prod.fst = commonNumberKeys ∧
      lookupFirst m k = some v ∧
      (m.map Prod.fst).count k = 1 := by
  have hkeys : (numberCommonProps field_type title).map Prod.fst = commonNumberKeys := rfl
  have hsome : (lookupFirst (numberCommonProps field_type title) k).isSome := by
    rw [lookupFirst_isSome_iff, hkeys]
    exact hk
  refine ⟨updateEntry (numberCommonProps field_type title) k v, rfl, ?_, ?_, ?_⟩
  · rw [updateEntry, if_pos hsome, setFirst_map_fst, hkeys]
  · rw [updateEntry, if_pos hsome]
    exact lookupFirst_setFirst_self _ _ _ hsome
  · rw [updateEntry, if_pos hsome, setFirst_map_fst, hkeys]
    exact List.count_eq_one_of_mem (by decide) hk

/-- Witness for C10: overriding the common `default` property with a
number-valued schema. -/
theorem c10_witness :
    ∃ m, (create_number_field "integer" "Integer Field" "d" [] []
        (some [("default", Json.num 7)])).get? "properties" = some (Json.obj m) ∧
      m.map Prod.fst = commonNumberKeys ∧
      lookupFirst m "default" = some (Json.num 7) ∧
      (m.map Prod.fst).count "default" = 1 :=
  c10_merge_overwrites "integer" "Integer Field" "d" [] [] "default" (Json.num 7)
    (by decide)
